import Mathlib

/-!
Shallow embedding of the apollo show-control node (decode-detroit/apollo).

The embedding covers the request dispatcher (`src/system_interface/mod.rs`,
`SystemInterface::run_once` / `run` / `restore_playlist`), the backup
synchronizer (`src/system_interface/backup_handler.rs`, `BackupHandler`),
the playback driver validation layer
(`src/system_interface/media_playback.rs`, `MediaPlayback`) and the backup
record (`src/definitions/backup.rs`, `MediaPlayback` / `MediaPlaylist`).

External libraries (gstreamer, redis, serde_yaml) are modelled by an
`Oracle` record carrying the outcome of each external call; validation
logic is translated from the source.  Rust `Duration` values are modelled
as `Nat` nanoseconds bounded by `durationMaxNanos`; `u64` arithmetic is
modelled as `Nat` with explicit `% 2 ^ 64` where the source can overflow.
-/

namespace Apollo

/-- The `u64` modulus, for arithmetic the source performs on `u64`. -/
def U64MOD : Nat := 2 ^ 64

/-- Rust `Duration::MAX` in nanoseconds: `u64::MAX` seconds plus
`999_999_999` nanoseconds. -/
def durationMaxNanos : Nat := (2 ^ 64 - 1) * 1000000000 + 999999999

/-- Rust `Duration::checked_add`: `none` exactly when the sum is not
representable as a `Duration`. -/
def durationCheckedAdd (a b : Nat) : Option Nat :=
  if a + b ≤ durationMaxNanos then some (a + b) else none

/-- Rust `Duration::from_millis` (total nanoseconds). -/
def durationFromMillis (ms : Nat) : Nat := ms * 1000000

/-- Rust `Duration::as_millis` (truncating division of nanoseconds). -/
def durationAsMillis (nanos : Nat) : Nat := nanos / 1000000

/-- Playback state of a channel (`definitions`): `Playing` or `Paused`. -/
inductive PlaybackState where
  | Playing
  | Paused
deriving DecidableEq, Repr

/-- Modelled from the spec: `WindowDefinition` is declared in the missing
`src/definitions/media.rs`; fields reconstructed from the spec data model
and the uses in `backup_handler.rs` (`window_number`, `fullscreen`,
`dimensions`). -/
structure WindowDefinition where
  window_number : Nat
  fullscreen : Bool
  dimensions : Option (Int × Int)
deriving DecidableEq, Repr

/-- A video frame that also names its window (used inside `MediaChannel`);
fields from the uses in `backup_channel_align` / `backup_channel_resize`. -/
structure VideoFrameWithWindow where
  window_number : Nat
  top : Int
  left : Int
  height : Int
  width : Int
deriving DecidableEq, Repr

/-- A bare video frame (the `video_frame` carried by `ChannelAllocation`,
without a window number). -/
structure VideoFrame where
  top : Int
  left : Int
  height : Int
  width : Int
deriving DecidableEq, Repr

/-- Audio output device selector (`definitions`). -/
inductive AudioDevice where
  | Alsa (device_name : String)
  | Pulse (device_name : String)
  | Jack
deriving DecidableEq, Repr

/-- Modelled from the spec: `MediaChannel` is declared in the missing
`src/definitions/media.rs`; fields reconstructed from the spec data model
and the uses in `media_playback.rs` and `backup_handler.rs`. -/
structure MediaChannel where
  channel : Nat
  video_frame : Option VideoFrameWithWindow
  audio_device : Option AudioDevice
  loop_media : Option String
deriving DecidableEq, Repr

/-- A media cue (`definitions`): a request to play `uri` on `channel`. -/
structure MediaCue where
  uri : String
  channel : Nat
  loop_media : Option String
deriving DecidableEq, Repr

/-- Desired playback state for a channel (`definitions`). -/
structure ChannelState where
  channel : Nat
  state : PlaybackState
deriving DecidableEq, Repr

/-- Desired playback position for a channel (`definitions`); `position`
is a `u64` count of milliseconds. -/
structure ChannelSeek where
  channel : Nat
  position : Nat
deriving DecidableEq, Repr

/-- One-pixel nudge direction (`definitions`). -/
inductive Direction where
  | Up
  | Down
  | Left
  | Right
deriving DecidableEq, Repr

/-- A one-pixel realignment of a channel frame (`definitions`). -/
structure ChannelRealignment where
  channel : Nat
  direction : Direction
deriving DecidableEq, Repr

/-- A wholesale frame replacement for a channel (`definitions`). -/
structure ChannelAllocation where
  channel : Nat
  video_frame : VideoFrame
deriving DecidableEq, Repr

/-- `definitions/backup.rs`: a media cue with timing information, the
per-channel record mirrored to the backup store.  `seek_to` is a
`Duration`, modelled as nanoseconds. -/
structure MediaPlayback where
  media_cue : MediaCue
  seek_to : Nat
  state : PlaybackState
deriving DecidableEq, Repr

/-- `MediaPlayback::update` (`definitions/backup.rs`): add time to the
current position; keep the current time if the addition overflows. -/
def MediaPlayback.update (p : MediaPlayback) (additional_time : Nat) : MediaPlayback :=
  { p with seek_to := (durationCheckedAdd p.seek_to additional_time).getD p.seek_to }

/-- `MediaPlaylist` (`definitions/backup.rs`): map channel → playback,
modelled as an association list with unique keys. -/
abbrev MediaPlaylist : Type := List (Nat × MediaPlayback)

/-- The empty playlist (`MediaPlaylist::default()`). -/
def MediaPlaylist.empty : MediaPlaylist := []

/-- Map lookup (`FnvHashMap::get`). -/
def playlistGet (key : Nat) : MediaPlaylist → Option MediaPlayback
  | [] => none
  | (k, v) :: rest => if k = key then some v else playlistGet key rest

/-- Map insert (`FnvHashMap::insert`): replaces an existing entry for the
key, otherwise adds a new entry. -/
def playlistInsert (key : Nat) (val : MediaPlayback) : MediaPlaylist → MediaPlaylist
  | [] => [(key, val)]
  | (k, v) :: rest =>
    if k = key then (key, val) :: rest else (k, v) :: playlistInsert key val rest

/-- Update the entry for a key in place, if present (`FnvHashMap::get_mut`
followed by a field assignment). -/
def playlistModify (key : Nat) (f : MediaPlayback → MediaPlayback) : MediaPlaylist → MediaPlaylist
  | [] => []
  | (k, v) :: rest =>
    if k = key then (k, f v) :: rest else (k, v) :: playlistModify key f rest

/-- Update every value (`FnvHashMap::values_mut`). -/
def playlistMap (f : MediaPlayback → MediaPlayback) : MediaPlaylist → MediaPlaylist
  | [] => []
  | (k, v) :: rest => (k, f v) :: playlistMap f rest

/-- Window and channel lists (`WindowList` / `ChannelList` in the missing
`definitions/media.rs`): ordered `Vec`s, modelled as `List`s. -/
abbrev WindowList : Type := List WindowDefinition

/-- The ordered list of defined channels. -/
abbrev ChannelList : Type := List MediaChannel

/-- Outcomes of the external library calls (gstreamer, redis, serde_yaml)
made during one dispatched request.  Validation logic stays in the
translated code; only genuinely external successes/failures and
measurements live here. -/
structure Oracle where
  elapsed : Nat
  playbinOk : Bool
  loopStartOk : Bool
  cueStopOk : Bool
  cuePlayOk : Bool
  loopLockOk : Bool
  stateOk : Bool
  seekSimpleOk : Bool
  queryDuration : Option Nat
  allStopOk : Bool
  serOk : Bool
  writeOk : Bool
deriving DecidableEq, Repr

/-- An oracle on which every external call succeeds, media duration
queries report `dur` milliseconds, and `elapsed` nanoseconds passed since
the last media update. -/
def okOracle (elapsed : Nat) (dur : Option Nat) : Oracle :=
  ⟨elapsed, true, true, true, true, true, true, true, dur, true, true, true⟩

/-- `media_playback.rs` `InternalChannel`: per-channel driver state.  The
gstreamer `playbin` and bus watch guard are external resources; the fields
the dispatcher logic reads and writes are the channel loop and the
`loop_mutex` contents. -/
structure InternalChannel where
  channel_loop : Option String
  loop_media : Option String
deriving DecidableEq, Repr

/-- The playback driver state (`media_playback.rs` `MediaPlayback`,
renamed to avoid the clash with the backup record of the same name): the
map of channel numbers to internal channels. -/
abbrev MediaPlaybackDriver : Type := List (Nat × InternalChannel)

/-- Driver map lookup (`FnvHashMap::get`). -/
def driverGet (key : Nat) : MediaPlaybackDriver → Option InternalChannel
  | [] => none
  | (k, v) :: rest => if k = key then some v else driverGet key rest

/-- Driver map insert (`FnvHashMap::insert`). -/
def driverInsert (key : Nat) (val : InternalChannel) : MediaPlaybackDriver → MediaPlaybackDriver
  | [] => [(key, val)]
  | (k, v) :: rest =>
    if k = key then (key, val) :: rest else (k, v) :: driverInsert key val rest

/-- Update the driver entry for a key in place, if present. -/
def driverModify (key : Nat) (f : InternalChannel → InternalChannel) :
    MediaPlaybackDriver → MediaPlaybackDriver
  | [] => []
  | (k, v) :: rest =>
    if k = key then (k, f v) :: rest else (k, v) :: driverModify key f rest

/-- The video stream handed to the user interface when a channel defines
a visible frame (`VideoStream`, geometry fields only). -/
structure VideoStream where
  window_number : Nat
  channel : Nat
  allocation : VideoFrame
deriving DecidableEq, Repr

/-- `MediaPlayback::define_channel` (`media_playback.rs`): rejects a
duplicate channel; creates the playbin, audio sink, optional video
overlay and bus watch (their external failures are collapsed into
`playbinOk`); starts any loop media; only then inserts the channel. -/
def driverDefineChannel (d : MediaPlaybackDriver) (o : Oracle) (media_channel : MediaChannel) :
    Except String (MediaPlaybackDriver × Option VideoStream) :=
  if (driverGet media_channel.channel d).isSome then
    .error "Channel is already defined."
  else if !o.playbinOk then
    .error "Unable to create playbin."
  else
    let video_stream : Option VideoStream := media_channel.video_frame.map
      (fun vf => ⟨vf.window_number, media_channel.channel, ⟨vf.top, vf.left, vf.height, vf.width⟩⟩)
    if media_channel.loop_media.isSome && !o.loopStartOk then
      .error "Unable to start playing media."
    else
      .ok (driverInsert media_channel.channel
            ⟨media_channel.loop_media, media_channel.loop_media⟩ d,
          video_stream)

/-- `MediaPlayback::cue_media` (`media_playback.rs`): requires an
existing channel; stops the old media, sets the uri, starts the new
media, then replaces the loop media with the cue loop or channel loop. -/
def driverCueMedia (d : MediaPlaybackDriver) (o : Oracle) (media_cue : MediaCue) :
    Except String MediaPlaybackDriver :=
  match driverGet media_cue.channel d with
  | none => .error "Unable to cue media: Channel not defined."
  | some _ =>
    if !o.cueStopOk then .error "Unable to stop media."
    else if !o.cuePlayOk then .error "Unable to start playing media."
    else if !o.loopLockOk then .error "Unable to change loop media."
    else .ok (driverModify media_cue.channel
        (fun c => { c with loop_media := media_cue.loop_media.or c.channel_loop }) d)

/-- `MediaPlayback::change_state` (`media_playback.rs`): requires an
existing channel; sets the playbin to Playing or Paused. -/
def driverChangeState (d : MediaPlaybackDriver) (o : Oracle) (channel_state : ChannelState) :
    Except String Unit :=
  match driverGet channel_state.channel d with
  | none => .error "Unable to change state: Channel not defined."
  | some _ =>
    match channel_state.state with
    | .Playing => if o.stateOk then .ok () else .error "Unable to play media."
    | .Paused => if o.stateOk then .ok () else .error "Unable to pause media."

/-- The millisecond position handed to `seek_simple`
(`media_playback.rs` lines 265-286): the requested position when the
media duration exceeds it, otherwise `duration - 300` computed on `u64`
(which wraps past zero when the duration is under 300 ms). -/
def seekTargetMs (durationMs position : Nat) : Nat :=
  if durationMs > position then position
  else (durationMs + U64MOD - 300) % U64MOD

/-- `MediaPlayback::seek` (`media_playback.rs`): requires an existing
channel and a queryable duration; returns the millisecond position issued
to `seek_simple` as its observable result. -/
def driverSeek (d : MediaPlaybackDriver) (o : Oracle) (channel_seek : ChannelSeek) :
    Except String Nat :=
  match driverGet channel_seek.channel d with
  | none => .error "Unable to seek media: Channel not defined."
  | some _ =>
    match o.queryDuration with
    | none => .error "Unable to seek media: No media playing."
    | some durationMs =>
      if o.seekSimpleOk then .ok (seekTargetMs durationMs channel_seek.position)
      else .error "Unable to seek media."

/-- `MediaPlayback::all_stop` (`media_playback.rs`): stops every channel;
the first external failure aborts with an error. -/
def driverAllStop (d : MediaPlaybackDriver) (o : Oracle) : Except String Unit :=
  match d with
  | [] => .ok ()
  | _ :: _ => if o.allStopOk then .ok () else .error "Unable to stop media."

/-- A value held by the backup store under one key: either data that
deserializes to `α` or bytes that fail to deserialize. -/
inductive Raw (α : Type) where
  | good (val : α)
  | bad
deriving DecidableEq, Repr

/-- The three namespaced keys of the redis backup store
(`apollo:<address>:windows` / `:channels` / `:media`); `none` models an
absent key. -/
structure RedisStore where
  windows : Option (Raw WindowList)
  channels : Option (Raw ChannelList)
  media : Option (Raw MediaPlaylist)
deriving DecidableEq, Repr

/-- `BackupHandler` (`backup_handler.rs`): the store connection (taken
and restored around every use, modelled by the `connection` flag), plus
the in-memory window list, channel list and media playlist.  The
`last_media_update` instant is replaced by the per-call `elapsed` oracle
field. -/
structure BackupHandler where
  connection : Bool
  window_list : WindowList
  channel_list : ChannelList
  media_playlist : MediaPlaylist
deriving DecidableEq, Repr

/-- `BackupHandler::update_media` (`backup_handler.rs` lines 587-595):
advance the seek position of every playlist entry by the elapsed time. -/
def BackupHandler.update_media (h : BackupHandler) (elapsed : Nat) : BackupHandler :=
  { h with media_playlist := playlistMap (fun m => m.update elapsed) h.media_playlist }

/-- `BackupHandler::backup_window` (`backup_handler.rs`): with a
connection, push the definition onto the window list, then serialize and
write it to the store (failures logged, list kept). -/
def backupWindow (h : BackupHandler) (store : RedisStore) (o : Oracle)
    (window_definition : WindowDefinition) : BackupHandler × RedisStore :=
  if h.connection then
    let h' := { h with window_list := h.window_list ++ [window_definition] }
    if o.serOk then
      if o.writeOk then (h', { store with windows := some (.good h'.window_list) })
      else (h', store)
    else (h', store)
  else (h, store)

/-- `BackupHandler::backup_channel` (`backup_handler.rs`): with a
connection, push the channel onto the channel list, then serialize and
write it to the store. -/
def backupChannel (h : BackupHandler) (store : RedisStore) (o : Oracle)
    (media_channel : MediaChannel) : BackupHandler × RedisStore :=
  if h.connection then
    let h' := { h with channel_list := h.channel_list ++ [media_channel] }
    if o.serOk then
      if o.writeOk then (h', { store with channels := some (.good h'.channel_list) })
      else (h', store)
    else (h', store)
  else (h, store)

/-- Move a frame one pixel in the given direction
(`backup_channel_align`, lines 231-236). -/
def alignFrame (frame : VideoFrameWithWindow) (direction : Direction) : VideoFrameWithWindow :=
  match direction with
  | .Up => { frame with top := frame.top - 1 }
  | .Down => { frame with top := frame.top + 1 }
  | .Left => { frame with left := frame.left - 1 }
  | .Right => { frame with left := frame.left + 1 }

/-- The in-place loop of `backup_channel_align`: walks the channel list
mutating matching channels; a matching channel without a frame causes the
early return (`false`), keeping mutations already made to earlier
entries. -/
def alignChannelListGo (new_alignment : ChannelRealignment) (acc : ChannelList) :
    ChannelList → ChannelList × Bool
  | [] => (acc.reverse, true)
  | ch :: rest =>
    if ch.channel = new_alignment.channel then
      match ch.video_frame with
      | none => (acc.reverse ++ ch :: rest, false)
      | some frame =>
        alignChannelListGo new_alignment
          ({ ch with video_frame := some (alignFrame frame new_alignment.direction) } :: acc) rest
    else alignChannelListGo new_alignment (ch :: acc) rest

/-- `BackupHandler::backup_channel_align` (`backup_handler.rs` lines
211-266): with a connection, nudge the matching channel frame; if the
channel has no existing frame, log and return without writing; otherwise
serialize and write the channel list. -/
def backupChannelAlign (h : BackupHandler) (store : RedisStore) (o : Oracle)
    (new_alignment : ChannelRealignment) : BackupHandler × RedisStore :=
  if h.connection then
    let res := alignChannelListGo new_alignment [] h.channel_list
    let h' := { h with channel_list := res.1 }
    if res.2 then
      if o.serOk then
        if o.writeOk then (h', { store with channels := some (.good h'.channel_list) })
        else (h', store)
      else (h', store)
    else (h', store)
  else (h, store)

/-- The in-place loop of `backup_channel_resize`: replaces the frame of
matching channels wholesale (keeping the old window number); a matching
channel without a frame causes the early return (`false`). -/
def resizeChannelListGo (new_size : ChannelAllocation) (acc : ChannelList) :
    ChannelList → ChannelList × Bool
  | [] => (acc.reverse, true)
  | ch :: rest =>
    if ch.channel = new_size.channel then
      match ch.video_frame with
      | none => (acc.reverse ++ ch :: rest, false)
      | some old_frame =>
        resizeChannelListGo new_size
          ({ ch with video_frame := some ⟨old_frame.window_number, new_size.video_frame.top,
              new_size.video_frame.left, new_size.video_frame.height,
              new_size.video_frame.width⟩ } :: acc) rest
    else resizeChannelListGo new_size (ch :: acc) rest

/-- `BackupHandler::backup_channel_resize` (`backup_handler.rs` lines
275-331): with a connection, replace the matching channel frame; if the
channel has no existing frame, log and return without writing; otherwise
serialize and write the channel list. -/
def backupChannelResize (h : BackupHandler) (store : RedisStore) (o : Oracle)
    (new_size : ChannelAllocation) : BackupHandler × RedisStore :=
  if h.connection then
    let res := resizeChannelListGo new_size [] h.channel_list
    let h' := { h with channel_list := res.1 }
    if res.2 then
      if o.serOk then
        if o.writeOk then (h', { store with channels := some (.good h'.channel_list) })
        else (h', store)
      else (h', store)
    else (h', store)
  else (h, store)

/-- `BackupHandler::backup_media` (`backup_handler.rs` lines 353-392):
with a connection, advance the playlist seek positions, replace the
playlist entry for the cue channel with a fresh playback record at
position zero in state Playing, then serialize and write the playlist. -/
def backupMedia (h : BackupHandler) (store : RedisStore) (o : Oracle)
    (media_cue : MediaCue) : BackupHandler × RedisStore :=
  if h.connection then
    let h1 := (h.update_media o.elapsed)
    let pl' := playlistInsert media_cue.channel ⟨media_cue, 0, .Playing⟩ h1.media_playlist
    let h' := { h1 with media_playlist := pl' }
    if o.serOk then
      if o.writeOk then (h', { store with media := some (.good h'.media_playlist) })
      else (h', store)
    else (h', store)
  else (h, store)

/-- `BackupHandler::backup_media_state` (`backup_handler.rs` lines
401-444): with a connection, advance the playlist seek positions; update
the state of the entry for the channel, or log and return without
writing when no entry exists; then serialize and write the playlist. -/
def backupMediaState (h : BackupHandler) (store : RedisStore) (o : Oracle)
    (new_state : ChannelState) : BackupHandler × RedisStore :=
  if h.connection then
    let h1 := (h.update_media o.elapsed)
    match playlistGet new_state.channel h1.media_playlist with
    | none => (h1, store)
    | some _ =>
      let pl' := playlistModify new_state.channel
        (fun m => { m with state := new_state.state }) h1.media_playlist
      let h' := { h1 with media_playlist := pl' }
      if o.serOk then
        if o.writeOk then (h', { store with media := some (.good h'.media_playlist) })
        else (h', store)
      else (h', store)
  else (h, store)

/-- `BackupHandler::backup_media_seek` (`backup_handler.rs` lines
453-496): with a connection, advance the playlist seek positions; set the
seek position of the entry for the channel, or log and return without
writing when no entry exists; then serialize and write the playlist. -/
def backupMediaSeek (h : BackupHandler) (store : RedisStore) (o : Oracle)
    (new_seek : ChannelSeek) : BackupHandler × RedisStore :=
  if h.connection then
    let h1 := (h.update_media o.elapsed)
    match playlistGet new_seek.channel h1.media_playlist with
    | none => (h1, store)
    | some _ =>
      let pl' := playlistModify new_seek.channel
        (fun m => { m with seek_to := durationFromMillis new_seek.position }) h1.media_playlist
      let h' := { h1 with media_playlist := pl' }
      if o.serOk then
        if o.writeOk then (h', { store with media := some (.good h'.media_playlist) })
        else (h', store)
      else (h', store)
  else (h, store)

/-- `BackupHandler::reload_backup` (`backup_handler.rs` lines 506-581):
with a connection, fetch the media key; when absent return nothing;
otherwise deserialize the playlist, window list and channel list (each
falling back to empty on its own failure), save them into the handler
and return the triple.  The store itself is returned untouched: no key
is deleted by reading. -/
def reloadBackup (h : BackupHandler) (store : RedisStore) :
    BackupHandler × RedisStore × Option (WindowList × ChannelList × MediaPlaylist) :=
  if h.connection then
    match store.media with
    | none => (h, store, none)
    | some raw =>
      let media_playlist : MediaPlaylist :=
        match raw with
        | .good pl => pl
        | .bad => MediaPlaylist.empty
      let window_list : WindowList :=
        match store.windows with
        | some (.good w) => w
        | _ => []
      let channel_list : ChannelList :=
        match store.channels with
        | some (.good c) => c
        | _ => []
      let h' := { h with media_playlist := media_playlist, window_list := window_list, channel_list := channel_list }
      (h', store, some (window_list, channel_list, media_playlist))
  else (h, store, none)

/-- The inbound request enum (`definitions/communication.rs`). -/
inductive Request where
  | AlignChannel (channel_realignment : ChannelRealignment)
  | AllStop
  | DefineWindow (window : WindowDefinition)
  | DefineChannel (media_channel : MediaChannel)
  | CueMedia (media_cue : MediaCue)
  | ChangeState (channel_state : ChannelState)
  | ResizeChannel (channel_allocation : ChannelAllocation)
  | Seek (channel_seek : ChannelSeek)
  | Close
deriving DecidableEq, Repr

/-- The reply enum (`definitions/communication.rs` `WebReply::Generic`). -/
structure WebReply where
  is_valid : Bool
  message : String
deriving DecidableEq, Repr

/-- `WebReply::success()`. -/
def WebReply.success : WebReply := ⟨true, "Request completed."⟩

/-- `WebReply::failure(reason)`. -/
def WebReply.failure (reason : String) : WebReply := ⟨false, reason⟩

/-- The updates pushed to the user-interface thread
(`definitions/communication.rs` `InterfaceUpdate`); fire-and-forget. -/
inductive InterfaceUpdate where
  | Window (window : WindowDefinition)
  | Video (video_stream : VideoStream)
  | Resize (channel_allocation : ChannelAllocation)
  | Align (channel_realignment : ChannelRealignment)
  | Close
deriving DecidableEq, Repr

/-- The dispatcher state (`SystemInterface` in `system_interface/mod.rs`):
the set of already-defined window numbers, the playback driver, the
backup handler, and — for the embedding — the backup store itself. -/
structure SystemState where
  windows : List Nat
  driver : MediaPlaybackDriver
  backup : BackupHandler
  store : RedisStore
deriving DecidableEq, Repr

/-- Membership in the `FnvHashSet` of window numbers. -/
def windowsContains (windows : List Nat) (n : Nat) : Bool := windows.contains n

/-- The observable outcome of one `run_once` iteration: whether the loop
continues, the new state, the replies sent on the request reply channel,
and the interface updates pushed. -/
structure StepResult where
  keepRunning : Bool
  state : SystemState
  replies : List WebReply
  updates : List InterfaceUpdate
deriving DecidableEq, Repr

/-- `SystemInterface::run_once` (`system_interface/mod.rs` lines
109-267): dispatch one inbound request, translated branch by branch.
Replies are collected in order on the request reply channel. -/
def runOnce (s : SystemState) (request : Request) (o : Oracle) : StepResult :=
  match request with
  | .AlignChannel channel_realignment =>
    let bs := backupChannelAlign s.backup s.store o channel_realignment
    ⟨true, { s with backup := bs.1, store := bs.2 }, [WebReply.success],
      [InterfaceUpdate.Align channel_realignment]⟩
  | .AllStop =>
    match driverAllStop s.driver o with
    | .error e => ⟨true, s, [WebReply.failure e], []⟩
    | .ok _ => ⟨true, s, [WebReply.success], []⟩
  | .DefineWindow window =>
    if windowsContains s.windows window.window_number then
      ⟨true, s, [WebReply.failure "Window was already defined."], []⟩
    else
      let s1 := { s with windows := window.window_number :: s.windows }
      let bs := backupWindow s1.backup s1.store o window
      ⟨true, { s1 with backup := bs.1, store := bs.2 }, [WebReply.success],
        [InterfaceUpdate.Window window]⟩
  | .DefineChannel media_channel =>
    match driverDefineChannel s.driver o media_channel with
    | .ok res =>
      let upds := match res.2 with
        | some video_stream => [InterfaceUpdate.Video video_stream]
        | none => []
      let bs := backupChannel s.backup s.store o media_channel
      ⟨true, { s with driver := res.1, backup := bs.1, store := bs.2 },
        [WebReply.success], upds⟩
    | .error e => ⟨true, s, [WebReply.failure e], []⟩
  | .CueMedia media_cue =>
    match driverCueMedia s.driver o media_cue with
    | .error e => ⟨true, s, [WebReply.failure e], []⟩
    | .ok d' =>
      let bs := backupMedia s.backup s.store o media_cue
      ⟨true, { s with driver := d', backup := bs.1, store := bs.2 },
        [WebReply.success], []⟩
  | .ChangeState channel_state =>
    match driverChangeState s.driver o channel_state with
    | .error e => ⟨true, s, [WebReply.failure e], []⟩
    | .ok _ =>
      let bs := backupMediaState s.backup s.store o channel_state
      ⟨true, { s with backup := bs.1, store := bs.2 }, [WebReply.success], []⟩
  | .ResizeChannel channel_allocation =>
    let bs := backupChannelResize s.backup s.store o channel_allocation
    ⟨true, { s with backup := bs.1, store := bs.2 }, [WebReply.success],
      [InterfaceUpdate.Resize channel_allocation]⟩
  | .Seek channel_seek =>
    match driverSeek s.driver o channel_seek with
    | .error e => ⟨true, s, [WebReply.failure e], []⟩
    | .ok _ =>
      let bs := backupMediaSeek s.backup s.store o channel_seek
      ⟨true, { s with backup := bs.1, store := bs.2 }, [WebReply.success], []⟩
  | .Close => ⟨false, s, [], []⟩

/-- The dispatch loop (`SystemInterface::run`, steady-state part): fold
`run_once` over the inbound requests, stopping after the first request on
which `run_once` asks to stop. -/
def runSeq (s : SystemState) : List (Request × Oracle) → SystemState
  | [] => s
  | (r, o) :: rest =>
    let res := runOnce s r o
    if res.keepRunning then runSeq res.state rest else res.state

/-- Whether one dispatched step accepted a `DefineWindow` request for
window number `n` (a success reply to a `DefineWindow` carrying `n`). -/
def acceptsWindow (request : Request) (res : StepResult) (n : Nat) : Bool :=
  match request with
  | .DefineWindow w =>
    w.window_number = n &&
      match res.replies with
      | [r] => r.is_valid
      | _ => false
  | _ => false

/-- How many requests of a dispatched sequence are `DefineWindow`
requests for window number `n` answered with a success reply. -/
def acceptCount (s : SystemState) (l : List (Request × Oracle)) (n : Nat) : Nat :=
  match l with
  | [] => 0
  | (r, o) :: rest =>
    let res := runOnce s r o
    (if acceptsWindow r res n then 1 else 0) +
      (if res.keepRunning then acceptCount res.state rest n else 0)

/-- The driver calls issued by the recovery sequencer, in order. -/
inductive DriverAction where
  | cue (media_cue : MediaCue)
  | sleepMs (ms : Nat)
  | seek (channel_seek : ChannelSeek)
  | changeState (channel_state : ChannelState)
deriving DecidableEq, Repr

/-- The position argument of the compensating recovery seek
(`restore_playlist` line 339): `seek_to.as_millis() as u64 + 500`,
all on `u64`. -/
def restoreSeekPosition (seek_to : Nat) : Nat :=
  (durationAsMillis seek_to % U64MOD + 500) % U64MOD

/-- First loop of `restore_playlist`: cue the stored media of every
entry; a failed cue is logged and the loop continues.  `os` supplies the
per-call oracle (one per iteration). -/
def restoreCues (d : MediaPlaybackDriver) (os : List Oracle) :
    MediaPlaylist → MediaPlaybackDriver × List DriverAction
  | [] => (d, [])
  | (_, playback) :: rest =>
    let o := os.headD (okOracle 0 none)
    let d' := match driverCueMedia d o playback.media_cue with
      | .ok d2 => d2
      | .error _ => d
    let res := restoreCues d' os.tail rest
    (res.1, .cue playback.media_cue :: res.2)

/-- Second loop of `restore_playlist`: seek every entry to its stored
position plus the settle delay; a failed seek is logged and the loop
continues. -/
def restoreSeeks (d : MediaPlaybackDriver) (os : List Oracle) :
    MediaPlaylist → List DriverAction
  | [] => []
  | (channel, playback) :: rest =>
    let o := os.headD (okOracle 0 none)
    let action := DriverAction.seek ⟨channel, restoreSeekPosition playback.seek_to⟩
    match driverSeek d o ⟨channel, restoreSeekPosition playback.seek_to⟩ with
    | .ok _ => action :: restoreSeeks d os.tail rest
    | .error _ => action :: restoreSeeks d os.tail rest

/-- Third loop of `restore_playlist`: for every entry whose stored state
is not Playing, issue the stored state change; a failure is logged and
the loop continues. -/
def restoreStates (d : MediaPlaybackDriver) (os : List Oracle) :
    MediaPlaylist → List DriverAction
  | [] => []
  | (channel, playback) :: rest =>
    if playback.state ≠ PlaybackState.Playing then
      let o := os.headD (okOracle 0 none)
      let action := DriverAction.changeState ⟨channel, playback.state⟩
      match driverChangeState d o ⟨channel, playback.state⟩ with
      | .ok _ => action :: restoreStates d os.tail rest
      | .error _ => action :: restoreStates d os.tail rest
    else restoreStates d os.tail rest

/-- `SystemInterface::restore_playlist` (`system_interface/mod.rs` lines
320-375): cue every recovered entry, wait the fixed 500 ms settle delay,
seek every entry to its stored position plus the delay, then change the
state of every entry stored as not Playing.  Returns the driver calls
issued, in order. -/
def restorePlaylist (d : MediaPlaybackDriver) (playlist : MediaPlaylist)
    (os1 os2 os3 : List Oracle) : List DriverAction :=
  let cues := restoreCues d os1 playlist
  cues.2 ++ [DriverAction.sleepMs 500] ++
    restoreSeeks cues.1 os2 playlist ++ restoreStates cues.1 os3 playlist

/-- A convenient initial dispatcher state: nothing defined, an empty
store, and a backup connection present or absent. -/
def initState (conn : Bool) : SystemState :=
  ⟨[], [], ⟨conn, [], [], []⟩, ⟨none, none, none⟩⟩

/-! ### Helper lemmas -/

theorem playlistGet_playlistMap (f : MediaPlayback → MediaPlayback) (key : Nat) :
    ∀ pl : MediaPlaylist, playlistGet key (playlistMap f pl) = (playlistGet key pl).map f := by
  intro pl
  induction pl with
  | nil => rfl
  | cons head tail ih =>
    obtain ⟨k, v⟩ := head
    by_cases hk : k = key
    · simp [playlistMap, playlistGet, hk]
    · simp [playlistMap, playlistGet, hk, ih]

theorem playlistModify_absent (f : MediaPlayback → MediaPlayback) (key : Nat) :
    ∀ pl : MediaPlaylist, playlistGet key pl = none → playlistModify key f pl = pl := by
  intro pl
  induction pl with
  | nil => intro; rfl
  | cons head tail ih =>
    obtain ⟨k, v⟩ := head
    by_cases hk : k = key
    · intro hget
      simp [playlistGet, hk] at hget
    · intro hget
      simp [playlistGet, hk] at hget
      simp [playlistModify, hk, ih hget]

theorem update_seek_to_le (p : MediaPlayback) (t : Nat) :
    p.seek_to ≤ (p.update t).seek_to := by
  unfold MediaPlayback.update durationCheckedAdd
  by_cases hle : p.seek_to + t ≤ durationMaxNanos
  · simp [hle]
  · simp [hle]

theorem update_seek_to_bounded (p : MediaPlayback) (t : Nat)
    (hp : p.seek_to ≤ durationMaxNanos) : (p.update t).seek_to ≤ durationMaxNanos := by
  unfold MediaPlayback.update durationCheckedAdd
  by_cases hle : p.seek_to + t ≤ durationMaxNanos
  · simp [hle]
  · simp [hle]
    exact hp

/-! ### C5 -/

/-- C5: between any two calls of the time-advance operation
(`BackupHandler::update_media`, built on `MediaPlayback::update`)
separated by a positive elapsed duration, every playback entry keeps its
channel and its `seek_to` is monotonically non-decreasing; a value within
`Duration::MAX` stays within `Duration::MAX` (on overflow the addition is
dropped rather than wrapping or panicking). -/
theorem seek_to_monotone_saturating (h : BackupHandler) (elapsed : Nat)
    (_hpos : 0 < elapsed) (channel : Nat) (p : MediaPlayback)
    (hget : playlistGet channel h.media_playlist = some p)
    (hbound : p.seek_to ≤ durationMaxNanos) :
    ∃ p', playlistGet channel (h.update_media elapsed).media_playlist = some p' ∧
      p.seek_to ≤ p'.seek_to ∧ p'.seek_to ≤ durationMaxNanos := by
  refine ⟨p.update elapsed, ?_, update_seek_to_le p elapsed, update_seek_to_bounded p elapsed hbound⟩
  unfold BackupHandler.update_media
  rw [playlistGet_playlistMap]
  simp [hget]

/-- Witness for C5 at a concrete playlist: channel 1 at 5 ns advanced by
7 ns. -/
theorem seek_to_monotone_witness :
    ∃ p', playlistGet 1
        ((⟨true, [], [], [(1, ⟨⟨"a.mp4", 1, none⟩, 5, PlaybackState.Playing⟩)]⟩ :
          BackupHandler).update_media 7).media_playlist = some p' ∧
      5 ≤ p'.seek_to ∧ p'.seek_to ≤ durationMaxNanos :=
  seek_to_monotone_saturating
    ⟨true, [], [], [(1, ⟨⟨"a.mp4", 1, none⟩, 5, PlaybackState.Playing⟩)]⟩ 7
    (by decide) 1 ⟨⟨"a.mp4", 1, none⟩, 5, PlaybackState.Playing⟩ rfl (by decide)

/-! ### C6 -/

/-- C6 (code bug): for a media duration of 100 ms and a requested
position of 200 ms, `MediaPlayback::seek` computes the `u64` value
`duration - 300`, which wraps past zero to 18446744073709551416 ms — not
a position within 300 ms of end-of-media (in a debug build the
subtraction panics instead). -/
theorem seek_short_duration_wraps :
    driverSeek [(1, ⟨none, none⟩)] (okOracle 0 (some 100)) ⟨1, 200⟩ =
        Except.ok 18446744073709551416 ∧
      seekTargetMs 100 200 = U64MOD - 200 ∧
      ¬ seekTargetMs 100 200 ≤ 100 + 300 := by
  refine ⟨rfl, by decide, by decide⟩

/-! ### C10 -/

/-- C10: without a store connection every backup operation is a complete
no-op: the handler (window list, channel list, media playlist included)
and the store are returned exactly as given. -/
theorem backup_noop_without_connection (h : BackupHandler) (store : RedisStore) (o : Oracle)
    (w : WindowDefinition) (mc : MediaChannel) (cr : ChannelRealignment)
    (ca : ChannelAllocation) (cue : MediaCue) (cs : ChannelState) (sk : ChannelSeek)
    (hconn : h.connection = false) :
    backupWindow h store o w = (h, store) ∧
      backupChannel h store o mc = (h, store) ∧
      backupChannelAlign h store o cr = (h, store) ∧
      backupChannelResize h store o ca = (h, store) ∧
      backupMedia h store o cue = (h, store) ∧
      backupMediaState h store o cs = (h, store) ∧
      backupMediaSeek h store o sk = (h, store) := by
  unfold backupWindow backupChannel backupChannelAlign backupChannelResize backupMedia
    backupMediaState backupMediaSeek
  simp [hconn]

/-- Witness for C10 at a concrete disconnected handler holding data. -/
theorem backup_noop_witness :
    backupWindow ⟨false, [⟨4, false, none⟩], [], []⟩ ⟨none, none, none⟩ (okOracle 0 none)
        ⟨9, true, none⟩ =
      (⟨false, [⟨4, false, none⟩], [], []⟩, ⟨none, none, none⟩) ∧
    backupMedia ⟨false, [⟨4, false, none⟩], [], []⟩ ⟨none, none, none⟩ (okOracle 0 none)
        ⟨"v.mp4", 2, none⟩ =
      (⟨false, [⟨4, false, none⟩], [], []⟩, ⟨none, none, none⟩) :=
  ⟨(backup_noop_without_connection ⟨false, [⟨4, false, none⟩], [], []⟩ ⟨none, none, none⟩
      (okOracle 0 none) ⟨9, true, none⟩ ⟨2, none, none, none⟩ ⟨2, .Up⟩ ⟨2, ⟨0, 0, 0, 0⟩⟩
      ⟨"v.mp4", 2, none⟩ ⟨2, .Paused⟩ ⟨2, 0⟩ rfl).1,
   (backup_noop_without_connection ⟨false, [⟨4, false, none⟩], [], []⟩ ⟨none, none, none⟩
      (okOracle 0 none) ⟨9, true, none⟩ ⟨2, none, none, none⟩ ⟨2, .Up⟩ ⟨2, ⟨0, 0, 0, 0⟩⟩
      ⟨"v.mp4", 2, none⟩ ⟨2, .Paused⟩ ⟨2, 0⟩ rfl).2.2.2.2.1⟩

/-! ### C1 -/

/-- C1 (counterexample): the `Close` branch of the dispatch loop ends the
loop without sending any reply on the request reply channel, so it is not
the case that every request (including `Close`) gets exactly one reply. -/
theorem close_sends_no_reply_counterexample :
    ¬ (runOnce (initState true) Request.Close (okOracle 0 none)).replies.length = 1 ∧
      (runOnce (initState true) Request.Close (okOracle 0 none)).replies = [] :=
  ⟨by decide, rfl⟩

/-- C1 (amended): every inbound request other than `Close` causes exactly
one reply to be sent back on its reply channel before the next request is
processed, on every failure branch included; `Close` sends none. -/
theorem run_once_one_reply_except_close (s : SystemState) (r : Request) (o : Oracle)
    (hr : r ≠ Request.Close) : (runOnce s r o).replies.length = 1 := by
  cases r with
  | AlignChannel cr => rfl
  | AllStop => cases hd : driverAllStop s.driver o <;> simp [runOnce, hd]
  | DefineWindow w =>
    by_cases hc : windowsContains s.windows w.window_number <;> simp [runOnce, hc]
  | DefineChannel mc => cases hd : driverDefineChannel s.driver o mc <;> simp [runOnce, hd]
  | CueMedia cue => cases hd : driverCueMedia s.driver o cue <;> simp [runOnce, hd]
  | ChangeState cs => cases hd : driverChangeState s.driver o cs <;> simp [runOnce, hd]
  | ResizeChannel ca => rfl
  | Seek sk => cases hd : driverSeek s.driver o sk <;> simp [runOnce, hd]
  | Close => exact absurd rfl hr

/-- Witness for the amended C1 at the `AllStop` request. -/
theorem run_once_one_reply_witness :
    (runOnce (initState true) Request.AllStop (okOracle 0 none)).replies.length = 1 :=
  run_once_one_reply_except_close (initState true) Request.AllStop (okOracle 0 none)
    (by decide)

/-! ### C7 -/

theorem runOnce_windows_mono (s : SystemState) (r : Request) (o : Oracle) (n : Nat)
    (hmem : windowsContains s.windows n = true) :
    windowsContains (runOnce s r o).state.windows n = true := by
  cases r with
  | AlignChannel cr => exact hmem
  | AllStop => cases hd : driverAllStop s.driver o <;> simpa [runOnce, hd] using hmem
  | DefineWindow w =>
    by_cases hc : windowsContains s.windows w.window_number
    · simpa [runOnce, hc] using hmem
    · simp [runOnce, hc]
      simp [windowsContains] at hmem ⊢
      exact Or.inr hmem
  | DefineChannel mc =>
    cases hd : driverDefineChannel s.driver o mc <;> simpa [runOnce, hd] using hmem
  | CueMedia cue => cases hd : driverCueMedia s.driver o cue <;> simpa [runOnce, hd] using hmem
  | ChangeState cs =>
    cases hd : driverChangeState s.driver o cs <;> simpa [runOnce, hd] using hmem
  | ResizeChannel ca => exact hmem
  | Seek sk => cases hd : driverSeek s.driver o sk <;> simpa [runOnce, hd] using hmem
  | Close => exact hmem

theorem acceptCount_zero_of_mem (n : Nat) :
    ∀ (l : List (Request × Oracle)) (s : SystemState),
      windowsContains s.windows n = true → acceptCount s l n = 0 := by
  intro l
  induction l with
  | nil => intro s _; rfl
  | cons head tail ih =>
    intro s hmem
    obtain ⟨r, o⟩ := head
    have hmono := runOnce_windows_mono s r o n hmem
    have haccept : acceptsWindow r (runOnce s r o) n = false := by
      cases r with
      | DefineWindow w =>
        by_cases hw : w.window_number = n
        · have hc : windowsContains s.windows w.window_number = true := by
            rw [hw]; exact hmem
          simp [acceptsWindow, runOnce, hc, WebReply.failure]
        · simp [acceptsWindow, hw]
      | AlignChannel cr => rfl
      | AllStop => rfl
      | DefineChannel mc => rfl
      | CueMedia cue => rfl
      | ChangeState cs => rfl
      | ResizeChannel ca => rfl
      | Seek sk => rfl
      | Close => rfl
    by_cases hk : (runOnce s r o).keepRunning <;>
      simp [acceptCount, haccept, hk, ih _ hmono]

theorem acceptCount_le_one (n : Nat) :
    ∀ (l : List (Request × Oracle)) (s : SystemState), acceptCount s l n ≤ 1 := by
  intro l
  induction l with
  | nil => intro s; simp [acceptCount]
  | cons head tail ih =>
    intro s
    obtain ⟨r, o⟩ := head
    by_cases ha : acceptsWindow r (runOnce s r o) n
    · have hmem : windowsContains (runOnce s r o).state.windows n = true := by
        cases r with
        | DefineWindow w =>
          by_cases hw : w.window_number = n
          · by_cases hc : windowsContains s.windows w.window_number
            · exfalso
              revert ha
              simp [acceptsWindow, runOnce, hc, WebReply.failure]
            · subst hw
              have hc' : w.window_number ∉ s.windows := by
                simpa [windowsContains] using hc
              simp [runOnce, windowsContains, hc']
          · exfalso
            revert ha
            simp [acceptsWindow, hw]
        | AlignChannel cr => exact absurd ha (by simp [acceptsWindow])
        | AllStop => exact absurd ha (by simp [acceptsWindow])
        | DefineChannel mc => exact absurd ha (by simp [acceptsWindow])
        | CueMedia cue => exact absurd ha (by simp [acceptsWindow])
        | ChangeState cs => exact absurd ha (by simp [acceptsWindow])
        | ResizeChannel ca => exact absurd ha (by simp [acceptsWindow])
        | Seek sk => exact absurd ha (by simp [acceptsWindow])
        | Close => exact absurd ha (by simp [acceptsWindow])
      have hzero := acceptCount_zero_of_mem n tail (runOnce s r o).state hmem
      by_cases hk : (runOnce s r o).keepRunning <;>
        simp [acceptCount, ha, hk, hzero]
    · by_cases hk : (runOnce s r o).keepRunning <;>
        simp [acceptCount, ha, hk, ih _]

/-- C7: over every dispatched request sequence a window number is
accepted at most once; a `DefineWindow` for an already-present number is
answered with the "already defined" failure and leaves the window set
unchanged, while a fresh number is answered with success and added to
the set. -/
theorem define_window_accepted_at_most_once (s : SystemState)
    (l : List (Request × Oracle)) (n : Nat) :
    acceptCount s l n ≤ 1 ∧
      (∀ (w : WindowDefinition) (o : Oracle),
        windowsContains s.windows w.window_number = true →
          (runOnce s (Request.DefineWindow w) o).replies =
              [WebReply.failure "Window was already defined."] ∧
            (runOnce s (Request.DefineWindow w) o).state.windows = s.windows) ∧
      (∀ (w : WindowDefinition) (o : Oracle),
        windowsContains s.windows w.window_number = false →
          (runOnce s (Request.DefineWindow w) o).replies = [WebReply.success] ∧
            (runOnce s (Request.DefineWindow w) o).state.windows =
              w.window_number :: s.windows) := by
  refine ⟨acceptCount_le_one n l s, ?_, ?_⟩
  · intro w o hc
    constructor <;> simp [runOnce, hc]
  · intro w o hc
    constructor <;> simp [runOnce, hc]

/-- Witness for C7: a concrete duplicate-definition sequence for window
number 1, plus a first definition accepted from the empty state. -/
theorem define_window_witness :
    acceptCount (initState true)
        [(Request.DefineWindow ⟨1, true, none⟩, okOracle 0 none),
         (Request.DefineWindow ⟨1, false, none⟩, okOracle 0 none)] 1 ≤ 1 ∧
      (runOnce (initState true) (Request.DefineWindow ⟨1, true, none⟩)
          (okOracle 0 none)).replies = [WebReply.success] :=
  ⟨(define_window_accepted_at_most_once (initState true)
      [(Request.DefineWindow ⟨1, true, none⟩, okOracle 0 none),
       (Request.DefineWindow ⟨1, false, none⟩, okOracle 0 none)] 1).1,
   ((define_window_accepted_at_most_once (initState true) [] 1).2.2
      ⟨1, true, none⟩ (okOracle 0 none) (by decide)).1⟩

/-! ### C2 -/

/-- C2 (counterexample): a channel defined in the playback driver but
never cued has no playback entry, yet `ChangeState` on it is answered
with a success reply — not with an "unknown channel" failure. -/
theorem change_state_missing_entry_counterexample :
    (runOnce ⟨[], [(1, ⟨none, none⟩)], ⟨true, [], [], []⟩, ⟨none, none, none⟩⟩
        (Request.ChangeState ⟨1, PlaybackState.Paused⟩) (okOracle 0 none)).replies =
      [WebReply.success] ∧
    playlistGet 1 (⟨[], [(1, ⟨none, none⟩)], ⟨true, [], [], []⟩,
        ⟨none, none, none⟩⟩ : SystemState).backup.media_playlist = none :=
  ⟨rfl, rfl⟩

/-- C2 (amended): `ChangeState` is answered with a failure exactly when
the channel is not defined in the playback driver, leaving the media map
unchanged; when the driver succeeds the reply is success even if no
playback entry exists — the missing entry is only logged, the map gains
no entry, and an existing entry has only its `state` field changed
(besides the uniform `seek_to` time-advance applied before any media
persist). -/
theorem change_state_reply_and_playlist (s : SystemState) (cs : ChannelState) (o : Oracle) :
    (driverGet cs.channel s.driver = none →
      (runOnce s (Request.ChangeState cs) o).replies =
          [WebReply.failure "Unable to change state: Channel not defined."] ∧
        (runOnce s (Request.ChangeState cs) o).state.backup.media_playlist =
          s.backup.media_playlist) ∧
    (∀ ch, driverGet cs.channel s.driver = some ch → o.stateOk = true →
      (runOnce s (Request.ChangeState cs) o).replies = [WebReply.success] ∧
        (runOnce s (Request.ChangeState cs) o).state.backup.media_playlist =
          (if s.backup.connection then
            playlistModify cs.channel (fun m => { m with state := cs.state })
              (playlistMap (fun m => m.update o.elapsed) s.backup.media_playlist)
          else s.backup.media_playlist)) := by
  constructor
  · intro hnone
    have hd : driverChangeState s.driver o cs =
        .error "Unable to change state: Channel not defined." := by
      simp [driverChangeState, hnone]
    constructor <;> simp [runOnce, hd]
  · intro ch hsome hok
    have hd : driverChangeState s.driver o cs = .ok () := by
      obtain ⟨c, st⟩ := cs
      cases st <;> simp_all [driverChangeState]
    refine ⟨by simp [runOnce, hd], ?_⟩
    simp [runOnce, hd]
    by_cases hconn : s.backup.connection
    · simp [backupMediaState, hconn, BackupHandler.update_media]
      cases hget : playlistGet cs.channel
          (playlistMap (fun m => m.update o.elapsed) s.backup.media_playlist) with
      | none => simp [hget, playlistModify_absent _ _ _ hget]
      | some m =>
        by_cases hser : o.serOk <;> by_cases hw : o.writeOk <;>
          simp [hget, hser, hw]
    · simp [backupMediaState, hconn]

/-- Witness for the amended C2: failure on an undefined channel, success
on a defined channel with no playback entry. -/
theorem change_state_reply_witness :
    (runOnce (initState true) (Request.ChangeState ⟨1, PlaybackState.Paused⟩)
        (okOracle 0 none)).replies =
      [WebReply.failure "Unable to change state: Channel not defined."] ∧
    (runOnce ⟨[], [(2, ⟨none, none⟩)], ⟨true, [], [], []⟩, ⟨none, none, none⟩⟩
        (Request.ChangeState ⟨2, PlaybackState.Paused⟩) (okOracle 0 none)).replies =
      [WebReply.success] :=
  ⟨((change_state_reply_and_playlist (initState true) ⟨1, PlaybackState.Paused⟩
      (okOracle 0 none)).1 rfl).1,
   ((change_state_reply_and_playlist
      ⟨[], [(2, ⟨none, none⟩)], ⟨true, [], [], []⟩, ⟨none, none, none⟩⟩
      ⟨2, PlaybackState.Paused⟩ (okOracle 0 none)).2 ⟨none, none⟩ rfl rfl).1⟩

/-! ### C3 -/

/-- C3 (counterexample): an `AlignChannel` request whose channel has no
existing frame is still answered with a success reply — the
Backup Synchronizer only logs the missing frame; no rejected-request
failure is propagated. -/
theorem align_channel_no_frame_counterexample :
    (runOnce ⟨[], [], ⟨true, [], [⟨1, none, none, none⟩], []⟩, ⟨none, none, none⟩⟩
        (Request.AlignChannel ⟨1, Direction.Up⟩) (okOracle 0 none)).replies =
      [WebReply.success] ∧
    (⟨1, none, none, none⟩ : MediaChannel).video_frame = none :=
  ⟨rfl, rfl⟩

theorem alignChannelListGo_no_frame (na : ChannelRealignment) :
    ∀ (l : ChannelList) (acc : ChannelList) (ch : MediaChannel),
      l.find? (fun c => c.channel == na.channel) = some ch → ch.video_frame = none →
      alignChannelListGo na acc l = (acc.reverse ++ l, false) := by
  intro l
  induction l with
  | nil => intro acc ch hfind; simp at hfind
  | cons head tail ih =>
    intro acc ch hfind hnone
    by_cases hc : head.channel = na.channel
    · have hh : head = ch := by
        simpa [List.find?_cons_of_pos, hc] using hfind
      subst hh
      simp [alignChannelListGo, hc, hnone]
    · have hfind' : tail.find? (fun c => c.channel == na.channel) = some ch := by
        simpa [List.find?_cons_of_neg, hc] using hfind
      simp [alignChannelListGo, hc]
      rw [ih (head :: acc) ch hfind' hnone]
      simp

/-- C3 (amended): every `AlignChannel` request is answered with a success
reply; when the targeted channel (the first channel-list entry with that
number) has no existing frame, the Backup Synchronizer only logs the
error and leaves the channel list unchanged instead of failing the
request. -/
theorem align_channel_always_succeeds (s : SystemState) (cr : ChannelRealignment)
    (o : Oracle) :
    (runOnce s (Request.AlignChannel cr) o).replies = [WebReply.success] ∧
      (∀ ch, s.backup.channel_list.find? (fun c => c.channel == cr.channel) = some ch →
        ch.video_frame = none →
        (runOnce s (Request.AlignChannel cr) o).state.backup.channel_list =
          s.backup.channel_list) := by
  refine ⟨rfl, ?_⟩
  intro ch hfind hnone
  simp [runOnce]
  by_cases hconn : s.backup.connection
  · simp [backupChannelAlign, hconn,
      alignChannelListGo_no_frame cr s.backup.channel_list [] ch hfind hnone]
  · simp [backupChannelAlign, hconn]

/-- Witness for the amended C3 at a concrete frameless channel. -/
theorem align_channel_witness :
    (runOnce ⟨[], [], ⟨true, [], [⟨3, none, none, none⟩], []⟩, ⟨none, none, none⟩⟩
        (Request.AlignChannel ⟨3, Direction.Down⟩) (okOracle 0 none)).replies =
      [WebReply.success] ∧
    (runOnce ⟨[], [], ⟨true, [], [⟨3, none, none, none⟩], []⟩, ⟨none, none, none⟩⟩
        (Request.AlignChannel ⟨3, Direction.Down⟩)
        (okOracle 0 none)).state.backup.channel_list = [⟨3, none, none, none⟩] :=
  ⟨(align_channel_always_succeeds
      ⟨[], [], ⟨true, [], [⟨3, none, none, none⟩], []⟩, ⟨none, none, none⟩⟩
      ⟨3, Direction.Down⟩ (okOracle 0 none)).1,
   (align_channel_always_succeeds
      ⟨[], [], ⟨true, [], [⟨3, none, none, none⟩], []⟩, ⟨none, none, none⟩⟩
      ⟨3, Direction.Down⟩ (okOracle 0 none)).2 ⟨3, none, none, none⟩ (by decide) rfl⟩

/-! ### C8 -/

/-- C8: with a live connection, `reload_backup` returns nothing exactly
when the media key is absent (whatever the windows and channels keys
hold); when the media key is present, each of the three keys that is
absent or fails to deserialize falls back to an empty value for that key
only, the triple is returned, and the store is returned untouched (no
key is deleted by reading). -/
theorem reload_media_key_gates (h : BackupHandler) (store : RedisStore)
    (hconn : h.connection = true) :
    ((reloadBackup h store).2.2 = none ↔ store.media = none) ∧
      (reloadBackup h store).2.1 = store ∧
      (∀ raw, store.media = some raw →
        (reloadBackup h store).2.2 =
          some ((match store.windows with | some (Raw.good w) => w | _ => ([] : WindowList)),
                (match store.channels with | some (Raw.good c) => c | _ => ([] : ChannelList)),
                (match raw with | Raw.good pl => pl | Raw.bad => ([] : MediaPlaylist)))) := by
  cases hm : store.media with
  | none => simp [reloadBackup, hconn, hm]
  | some raw => simp [reloadBackup, hconn, hm, MediaPlaylist.empty]

/-- Witness for C8: media key absent gives nothing; media key present
but undeserializable gives the triple with an empty playlist, an empty
window list (key absent) and the stored channel list, with the store
untouched. -/
theorem reload_witness :
    ((reloadBackup ⟨true, [], [], []⟩ ⟨none, some (Raw.good []), none⟩).2.2 = none) ∧
      (reloadBackup ⟨true, [], [], []⟩
          ⟨none, some (Raw.good [⟨5, none, none, none⟩]), some Raw.bad⟩).2.2 =
        some ([], [⟨5, none, none, none⟩], []) ∧
      (reloadBackup ⟨true, [], [], []⟩
          ⟨none, some (Raw.good [⟨5, none, none, none⟩]), some Raw.bad⟩).2.1 =
        ⟨none, some (Raw.good [⟨5, none, none, none⟩]), some Raw.bad⟩ :=
  ⟨(reload_media_key_gates ⟨true, [], [], []⟩ ⟨none, some (Raw.good []), none⟩ rfl).1.mpr
      rfl,
   (reload_media_key_gates ⟨true, [], [], []⟩
      ⟨none, some (Raw.good [⟨5, none, none, none⟩]), some Raw.bad⟩ rfl).2.2 Raw.bad rfl,
   (reload_media_key_gates ⟨true, [], [], []⟩
      ⟨none, some (Raw.good [⟨5, none, none, none⟩]), some Raw.bad⟩ rfl).2.1⟩

/-! ### C9 -/

theorem restoreCues_trace :
    ∀ (pl : MediaPlaylist) (d : MediaPlaybackDriver) (os : List Oracle),
      (restoreCues d os pl).2 = pl.map (fun e => DriverAction.cue e.2.media_cue) := by
  intro pl
  induction pl with
  | nil => intro d os; rfl
  | cons head tail ih =>
    intro d os
    obtain ⟨k, playback⟩ := head
    simp [restoreCues, ih]

theorem restoreSeeks_trace :
    ∀ (pl : MediaPlaylist) (d : MediaPlaybackDriver) (os : List Oracle),
      restoreSeeks d os pl =
        pl.map (fun e => DriverAction.seek ⟨e.1, restoreSeekPosition e.2.seek_to⟩) := by
  intro pl
  induction pl with
  | nil => intro d os; rfl
  | cons head tail ih =>
    intro d os
    obtain ⟨channel, playback⟩ := head
    simp only [restoreSeeks]
    cases driverSeek d (os.headD (okOracle 0 none))
        ⟨channel, restoreSeekPosition playback.seek_to⟩ <;> simp [ih]

theorem restoreStates_trace :
    ∀ (pl : MediaPlaylist) (d : MediaPlaybackDriver) (os : List Oracle),
      restoreStates d os pl =
        (pl.filter (fun e => !(e.2.state == PlaybackState.Playing))).map
          (fun e => DriverAction.changeState ⟨e.1, e.2.state⟩) := by
  intro pl
  induction pl with
  | nil => intro d os; rfl
  | cons head tail ih =>
    intro d os
    obtain ⟨channel, playback⟩ := head
    by_cases hst : playback.state = PlaybackState.Playing
    · simp [restoreStates, hst, ih]
    · simp only [restoreStates]
      rw [if_pos hst]
      cases driverChangeState d (os.headD (okOracle 0 none)) ⟨channel, playback.state⟩ <;>
        simp [ih, hst]

theorem restoreSeekPosition_exact (seek_to : Nat)
    (h : durationAsMillis seek_to + 500 < U64MOD) :
    restoreSeekPosition seek_to = durationAsMillis seek_to + 500 := by
  unfold restoreSeekPosition
  have h1 : durationAsMillis seek_to < U64MOD := lt_of_le_of_lt (Nat.le_add_right _ _) h
  rw [Nat.mod_eq_of_lt h1, Nat.mod_eq_of_lt h]

/-- C9: for any recovered playlist, recovery first cues the stored media
of every entry (playback restarting from position zero is the driver cue
contract), then waits the fixed 500 ms settle interval, then seeks every
entry to exactly `stored.seek_to + 500` milliseconds, then issues a state
change exactly for the entries whose stored state is not Playing — and
this sequence of issued calls is the same whatever per-channel failures
the driver reports (failures are logged, never aborting the rest). -/
theorem restore_playlist_trace (d : MediaPlaybackDriver) (playlist : MediaPlaylist)
    (os1 os2 os3 : List Oracle)
    (hbound : ∀ e ∈ playlist, durationAsMillis e.2.seek_to + 500 < U64MOD) :
    restorePlaylist d playlist os1 os2 os3 =
      playlist.map (fun e => DriverAction.cue e.2.media_cue) ++ [DriverAction.sleepMs 500] ++
        playlist.map (fun e => DriverAction.seek ⟨e.1, durationAsMillis e.2.seek_to + 500⟩) ++
        (playlist.filter (fun e => !(e.2.state == PlaybackState.Playing))).map
          (fun e => DriverAction.changeState ⟨e.1, e.2.state⟩) := by
  unfold restorePlaylist
  simp only [restoreCues_trace, restoreSeeks_trace, restoreStates_trace]
  have hpos : playlist.map (fun e => DriverAction.seek ⟨e.1, restoreSeekPosition e.2.seek_to⟩) =
      playlist.map (fun e => DriverAction.seek ⟨e.1, durationAsMillis e.2.seek_to + 500⟩) := by
    apply List.map_congr_left
    intro e he
    rw [restoreSeekPosition_exact e.2.seek_to (hbound e he)]
  rw [hpos]

/-- Witness for C9: a two-channel playlist (one Playing at 2 s, one
Paused at 0) recovered on a driver that only knows channel 1, with empty
oracle lists (every external call failing behind default oracles). -/
theorem restore_playlist_witness :
    restorePlaylist [(1, ⟨none, none⟩)]
        [(1, ⟨⟨"a.mp4", 1, none⟩, 2000000000, PlaybackState.Playing⟩),
         (2, ⟨⟨"b.mp4", 2, none⟩, 0, PlaybackState.Paused⟩)] [] [] [] =
      [DriverAction.cue ⟨"a.mp4", 1, none⟩, DriverAction.cue ⟨"b.mp4", 2, none⟩,
       DriverAction.sleepMs 500, DriverAction.seek ⟨1, 2500⟩, DriverAction.seek ⟨2, 500⟩,
       DriverAction.changeState ⟨2, PlaybackState.Paused⟩] :=
  restore_playlist_trace [(1, ⟨none, none⟩)]
    [(1, ⟨⟨"a.mp4", 1, none⟩, 2000000000, PlaybackState.Playing⟩),
     (2, ⟨⟨"b.mp4", 2, none⟩, 0, PlaybackState.Paused⟩)] [] [] [] (by decide)

/-! ### C4 -/

/-- C4: from a fresh state with a live store connection, dispatching
`DefineWindow W`, `DefineChannel C`, `CueMedia M1`, `CueMedia M2` (both
cues on C's channel, external calls succeeding) and then reloading the
backup yields window list `[W]`, channel list `[C]`, and a media map
whose single entry for C's channel holds cue `M2` at `seek_to` zero in
state Playing — the last cue wins and the entry is replaced, not
merged. -/
theorem define_cue_reload_round_trip
    (W : WindowDefinition) (C : MediaChannel) (M1 M2 : MediaCue)
    (e1 e2 e3 e4 : Nat) (d1 d2 d3 d4 : Option Nat)
    (h1 : M1.channel = C.channel) (h2 : M2.channel = C.channel) :
    (reloadBackup
        (runSeq (initState true)
          [(Request.DefineWindow W, okOracle e1 d1),
           (Request.DefineChannel C, okOracle e2 d2),
           (Request.CueMedia M1, okOracle e3 d3),
           (Request.CueMedia M2, okOracle e4 d4)]).backup
        (runSeq (initState true)
          [(Request.DefineWindow W, okOracle e1 d1),
           (Request.DefineChannel C, okOracle e2 d2),
           (Request.CueMedia M1, okOracle e3 d3),
           (Request.CueMedia M2, okOracle e4 d4)]).store).2.2 =
      some ([W], [C], [(C.channel, ⟨M2, 0, PlaybackState.Playing⟩)]) := by
  simp [runSeq, runOnce, initState, okOracle, windowsContains, driverDefineChannel,
    driverCueMedia, driverGet, driverInsert, driverModify, backupWindow, backupChannel,
    backupMedia, BackupHandler.update_media, playlistMap, playlistInsert, reloadBackup,
    h1, h2, MediaPlaylist.empty]

/-- Witness for C4 at the repository's own test data: window 1
(fullscreen), channel 1, then `video.mp4` and `new_video.mp4`. -/
theorem round_trip_witness :
    (reloadBackup
        (runSeq (initState true)
          [(Request.DefineWindow ⟨1, true, none⟩, okOracle 3 none),
           (Request.DefineChannel ⟨1, none, none, none⟩, okOracle 5 none),
           (Request.CueMedia ⟨"video.mp4", 1, none⟩, okOracle 7 none),
           (Request.CueMedia ⟨"new_video.mp4", 1, none⟩, okOracle 11 none)]).backup
        (runSeq (initState true)
          [(Request.DefineWindow ⟨1, true, none⟩, okOracle 3 none),
           (Request.DefineChannel ⟨1, none, none, none⟩, okOracle 5 none),
           (Request.CueMedia ⟨"video.mp4", 1, none⟩, okOracle 7 none),
           (Request.CueMedia ⟨"new_video.mp4", 1, none⟩, okOracle 11 none)]).store).2.2 =
      some ([⟨1, true, none⟩], [⟨1, none, none, none⟩],
        [(1, ⟨⟨"new_video.mp4", 1, none⟩, 0, PlaybackState.Playing⟩)]) :=
  define_cue_reload_round_trip ⟨1, true, none⟩ ⟨1, none, none, none⟩
    ⟨"video.mp4", 1, none⟩ ⟨"new_video.mp4", 1, none⟩ 3 5 7 11 none none none none rfl rfl

end Apollo
